import Mathlib

/-
  Verification development for the AgentMedic monitoring core.

  Shallow embedding of the core modules (circuit_breaker.py,
  quarantine_system.py, observer.py, diagnoser.py, recoverer.py,
  verifier.py, heartbeat.py, main.py) as executable Lean definitions.

  Modelling conventions:
  * wall-clock instants are integers; each operation that reads the clock in
    the source takes an explicit `now` argument instead.  Circuit-breaker,
    recoverer, verifier and heartbeat times are in seconds; quarantine times
    are in minutes (the source stores fractional hours, and half an hour is
    integral in minutes).
  * probe calls, subprocess invocations and network requests are modelled by
    environment records supplying their outcomes, and side effects are
    returned as explicit effect traces.
  * heterogeneous `evidence` payload dictionaries, log text truncation,
    timestamp strings inside messages and the JSON persistence layer carry no
    behaviour relevant here and are not modelled.
-/

namespace AgentMedic

/-! ## Circuit breaker (src/circuit_breaker.py) -/

/-- States of the per-dependency circuit breaker (`CircuitState`); `opened`
renders the source's OPEN state. -/
inductive CircuitState where
  | closed
  | opened
  | halfOpen
deriving DecidableEq

/-- `CircuitBreakerConfig` with the source's default thresholds. -/
structure CircuitBreakerConfig where
  failure_threshold : Nat := 5
  success_threshold : Nat := 2
  timeout_seconds : Int := 30
deriving DecidableEq

/-- The mutable fields of a `CircuitBreaker` instance. -/
structure CircuitBreaker where
  name : String
  config : CircuitBreakerConfig := {}
  state : CircuitState := .closed
  failure_count : Nat := 0
  success_count : Nat := 0
  last_failure_time : Option Int := none
deriving DecidableEq

/-- `CircuitBreaker._timeout_expired`: true when no failure was recorded yet or
`timeout_seconds` have elapsed since the last failure. -/
def CircuitBreaker.timeout_expired (cb : CircuitBreaker) (now : Int) : Bool :=
  match cb.last_failure_time with
  | none => true
  | some t => now - t ≥ cb.config.timeout_seconds

/-- `CircuitBreaker.can_execute`: returns the answer and the possibly updated
breaker (Open moves to HalfOpen when the timeout has expired). -/
def CircuitBreaker.can_execute (cb : CircuitBreaker) (now : Int) :
    Bool × CircuitBreaker :=
  match cb.state with
  | .closed => (true, cb)
  | .opened =>
      if cb.timeout_expired now then (true, { cb with state := .halfOpen })
      else (false, cb)
  | .halfOpen => (true, cb)

/-- `CircuitBreaker._open`. -/
def CircuitBreaker.openCircuit (cb : CircuitBreaker) : CircuitBreaker :=
  { cb with state := .opened, success_count := 0 }

/-- `CircuitBreaker._close`. -/
def CircuitBreaker.closeCircuit (cb : CircuitBreaker) : CircuitBreaker :=
  { cb with state := .closed, failure_count := 0, success_count := 0 }

/-- `CircuitBreaker.record_success`. -/
def CircuitBreaker.record_success (cb : CircuitBreaker) : CircuitBreaker :=
  if cb.state = .halfOpen then
    let cb2 := { cb with success_count := cb.success_count + 1 }
    if cb2.success_count ≥ cb.config.success_threshold then cb2.closeCircuit
    else cb2
  else
    { cb with failure_count := 0 }

/-- `CircuitBreaker.record_failure`. -/
def CircuitBreaker.record_failure (cb : CircuitBreaker) (now : Int) : CircuitBreaker :=
  let cb2 := { cb with failure_count := cb.failure_count + 1,
                       last_failure_time := some now }
  if cb.state = .halfOpen then cb2.openCircuit
  else if cb2.failure_count ≥ cb.config.failure_threshold then cb2.openCircuit
  else cb2

/-- A fresh breaker with the default configuration. -/
def defaultBreaker : CircuitBreaker := { name := "solana_rpc" }

/-- The breaker obtained from five consecutive `record_failure` calls on a
fresh default breaker. -/
def failFive (t1 t2 t3 t4 t5 : Int) : CircuitBreaker :=
  ((((defaultBreaker.record_failure t1).record_failure t2).record_failure
    t3).record_failure t4).record_failure t5

/-! ## Quarantine gate (src/quarantine_system.py) -/

/-- `QuarantineStatus`. -/
inductive QuarantineStatus where
  | pending
  | under_review
  | verified
  | rejected
  | expired
deriving DecidableEq

/-- `QuarantinedItem`.  Quarantine timestamps are in minutes. -/
structure QuarantinedItem where
  item_id : String
  data_type : String
  content : String
  source : String
  submitted_at : Int
  status : QuarantineStatus
  review_notes : List String
  confirmations : Nat
  required_confirmations : Nat
  expires_at : Int
  verified_at : Option Int := none
deriving DecidableEq

/-- `QuarantineSystem.CONFIRMATION_REQUIREMENTS` with its default of 2. -/
def confirmationRequirements (data_type : String) : Nat :=
  if data_type = "incident" then 1
  else if data_type = "threat" then 2
  else if data_type = "pattern" then 3
  else if data_type = "oracle_data" then 2
  else if data_type = "external_intel" then 3
  else 2

/-- `QuarantineSystem.QUARANTINE_DURATION`, converted from hours to minutes
(default 24 h = 1440 min). -/
def quarantineDurationMinutes (data_type : String) : Int :=
  if data_type = "incident" then 60
  else if data_type = "threat" then 360
  else if data_type = "pattern" then 1440
  else if data_type = "oracle_data" then 30
  else if data_type = "external_intel" then 720
  else 1440

/-- The in-memory item table of a `QuarantineSystem` (a dict keyed by item
id, modelled as an association list). -/
structure QuarantineSystem where
  items : List (String × QuarantinedItem) := []
deriving DecidableEq

/-- Dictionary lookup `self.items[item_id]`. -/
def QuarantineSystem.find? (qs : QuarantineSystem) (item_id : String) :
    Option QuarantinedItem :=
  qs.items.lookup item_id

/-- In-place mutation of the stored item with the given id. -/
def QuarantineSystem.setItem (qs : QuarantineSystem) (item_id : String)
    (item : QuarantinedItem) : QuarantineSystem :=
  { qs with items := qs.items.map (fun p => if p.1 = item_id then (item_id, item) else p) }

/-- `QuarantineSystem._check_verification`: promotes a quarantined item to
Verified as soon as `confirmations ≥ required_confirmations`; the expiry time
is not consulted. -/
def checkVerification (now : Int) (item : QuarantinedItem) : QuarantinedItem :=
  if item.confirmations ≥ item.required_confirmations then
    { item with
      status := .verified
      verified_at := some now
      review_notes := item.review_notes ++ ["AUTO-VERIFIED: Met confirmation threshold"] }
  else item

/-- `QuarantineSystem.submit`.  `genId` stands for the content hash
`_generate_id` (sha256 of the canonical JSON in the source). -/
def QuarantineSystem.submit (qs : QuarantineSystem) (genId : String → String)
    (now : Int) (data_type content source : String) :
    QuarantinedItem × QuarantineSystem :=
  let item_id := genId content
  match qs.find? item_id with
  | some existing =>
      if existing.status = .pending then
        if source ∈ existing.review_notes then (existing, qs)
        else
          let upd := checkVerification now
            { existing with
              confirmations := existing.confirmations + 1
              review_notes := existing.review_notes ++ ["Confirmed by: " ++ source] }
          (upd, qs.setItem item_id upd)
      else (existing, qs)
  | none =>
      let item : QuarantinedItem :=
        { item_id := item_id
          data_type := data_type
          content := content
          source := source
          submitted_at := now
          status := .pending
          review_notes := ["Submitted by: " ++ source]
          confirmations := 1
          required_confirmations := confirmationRequirements data_type
          expires_at := now + quarantineDurationMinutes data_type }
      let item2 := checkVerification now item
      (item2, { qs with items := qs.items ++ [(item_id, item2)] })

/-- `QuarantineSystem.confirm`: adds a confirmation to a pending item with no
check on who the confirming source is. -/
def QuarantineSystem.confirm (qs : QuarantineSystem) (now : Int)
    (item_id source notes : String) : Bool × QuarantineSystem :=
  match qs.find? item_id with
  | none => (false, qs)
  | some item =>
      if item.status = .pending then
        let upd := checkVerification now
          { item with
            confirmations := item.confirmations + 1
            review_notes := item.review_notes ++ ["Confirmed by " ++ source ++ ": " ++ notes] }
        (true, qs.setItem item_id upd)
      else (false, qs)

/-- `QuarantineSystem.reject`. -/
def QuarantineSystem.reject (qs : QuarantineSystem) (item_id reason : String) :
    Bool × QuarantineSystem :=
  match qs.find? item_id with
  | none => (false, qs)
  | some item =>
      let upd := { item with
        status := .rejected
        review_notes := item.review_notes ++ ["REJECTED: " ++ reason] }
      (true, qs.setItem item_id upd)

/-- `QuarantineSystem._expire_old_items` on a single item. -/
def expireItem (now : Int) (item : QuarantinedItem) : QuarantinedItem :=
  if item.status = .pending ∧ now > item.expires_at then
    { item with
      status := .expired
      review_notes := item.review_notes ++ ["EXPIRED: Did not meet confirmation threshold in time"] }
  else item

/-- `QuarantineSystem._expire_old_items`. -/
def QuarantineSystem.expire_old_items (qs : QuarantineSystem) (now : Int) :
    QuarantineSystem :=
  { qs with items := qs.items.map (fun p => (p.1, expireItem now p.2)) }

/-- `QuarantineSystem.get_pending`: lazily expires overdue items, then lists
the pending ones. -/
def QuarantineSystem.get_pending (qs : QuarantineSystem) (now : Int) :
    List QuarantinedItem × QuarantineSystem :=
  let qs2 := qs.expire_old_items now
  ((qs2.items.map Prod.snd).filter (fun i => i.status = .pending), qs2)

/-- `QuarantineSystem.is_trusted`. -/
def QuarantineSystem.is_trusted (qs : QuarantineSystem) (genId : String → String)
    (content : String) : Bool :=
  match qs.find? (genId content) with
  | some item => item.status = .verified
  | none => false

/-- Concrete content-id function used in scenario theorems (stands in for the
truncated sha256 of `_generate_id`). -/
def idFn : String → String := fun s => s

/-! ## Configuration (src/config.py) -/

/-- `AgentStatus`. -/
inductive AgentStatus where
  | healthy
  | degraded
  | failed
  | unknown
  | recovering
deriving DecidableEq

/-- `IncidentSeverity`. -/
inductive IncidentSeverity where
  | info
  | warning
  | critical
deriving DecidableEq

/-- `AgentConfig` (log path and tags omitted: nothing here reads them). -/
structure AgentConfig where
  name : String
  process_name : Option String := none
  health_endpoint : Option String := none
  solana_address : Option String := none
  restart_command : Option String := none
  max_restarts : Nat := 3
  restart_backoff_seconds : Int := 60
deriving DecidableEq

/-! ## Observer (src/observer.py)

A probe environment supplies the outcome each probe call would produce;
`check_agent` assembles them into a `HealthCheckResult` exactly as the source
does. -/

/-- Outcome of `check_process_running` (probe method and pid details carry no
behaviour downstream and are omitted). -/
structure ProcessCheck where
  running : Bool
deriving DecidableEq

/-- Outcome of `check_health_endpoint`. -/
structure HealthEndpointCheck where
  healthy : Bool
  status_code : Option Int := none
  latency_ms : Option Int := none
  error : Option String := none
deriving DecidableEq

/-- Outcome of `check_recent_transactions` (individual failure records
omitted; only the counts are read downstream). -/
structure TransactionsCheck where
  total_checked : Nat := 0
  successful : Nat := 0
  failed : Nat := 0
deriving DecidableEq

/-- `HealthCheckResult`: the `checks` dict is rendered as one optional field
per possible key; `metrics` and the timestamp are not read by the diagnoser
and are omitted. -/
structure HealthCheckResult where
  agent_name : String
  status : AgentStatus
  process : Option ProcessCheck := none
  health_endpoint : Option HealthEndpointCheck := none
  transactions : Option TransactionsCheck := none
  errors : List String := []
deriving DecidableEq

/-- Probe outcomes for one `check_agent` call; a probe result is consulted
only when the corresponding `AgentConfig` field is set. -/
structure ProbeEnv where
  process_result : ProcessCheck := { running := true }
  health_result : HealthEndpointCheck := { healthy := true }
  tx_result : TransactionsCheck := {}
deriving DecidableEq

/-- The error string recorded when the process probe reports not running
(source: f-string with the process name in quotes). -/
def processNotRunningError (pname : String) : String :=
  "Process " ++ pname ++ " not running"

/-- The error string recorded when the health endpoint probe is unhealthy. -/
def endpointUnhealthyError (h : HealthEndpointCheck) : String :=
  "Health endpoint unhealthy: " ++ h.error.getD (toString (h.status_code.getD 0))

/-- `check_agent`: runs the configured probes, collects errors, and derives
the overall status (FAILED when some error mentions a process not running,
DEGRADED for any other error, HEALTHY when no errors, UNKNOWN without
checks). -/
def check_agent (agent : AgentConfig) (env : ProbeEnv) : HealthCheckResult :=
  let procOpt := if agent.process_name.isSome then some env.process_result else none
  let healthOpt := if agent.health_endpoint.isSome then some env.health_result else none
  let txOpt := if agent.solana_address.isSome then some env.tx_result else none
  let procErrors : List String :=
    match agent.process_name with
    | some pname => if env.process_result.running then [] else [processNotRunningError pname]
    | none => []
  let healthErrors : List String :=
    match healthOpt with
    | some h => if h.healthy then [] else [endpointUnhealthyError h]
    | none => []
  let txErrors : List String :=
    match txOpt with
    | some tx => if tx.failed > 0 then [toString tx.failed ++ " failed transactions detected"] else []
    | none => []
  let errors := procErrors ++ healthErrors ++ txErrors
  let status :=
    if procOpt.isNone ∧ healthOpt.isNone ∧ txOpt.isNone then AgentStatus.unknown
    else if errors ≠ [] then
      if errors.any (fun e => decide (("not running".toList) <:+: e.toList)) then AgentStatus.failed
      else AgentStatus.degraded
    else AgentStatus.healthy
  { agent_name := agent.name
    status := status
    process := procOpt
    health_endpoint := healthOpt
    transactions := txOpt
    errors := errors }

/-! ## Diagnoser (src/diagnoser.py) -/

/-- `IncidentType`. -/
inductive IncidentType where
  | process_crash
  | process_hang
  | health_endpoint_failure
  | rpc_rate_limited
  | rpc_unavailable
  | transaction_failures
  | high_latency
  | unknown
deriving DecidableEq

/-- `Incident` (the heterogeneous `evidence` dict is omitted; the timestamp
inside the id string is not modelled, the monotone counter is). -/
structure Incident where
  id : String
  agent_name : Option String
  incident_type : IncidentType
  severity : IncidentSeverity
  description : String
  suggested_actions : List String := []
  requires_human : Bool := false
deriving DecidableEq

/-- `Diagnoser._generate_incident_id` from the incident counter. -/
def mkIncidentId (n : Nat) : String := "INC-" ++ toString n

/-- The process-crash rule of `diagnose_agent` (counter threaded through). -/
def procIncidents (n : Nat) (r : HealthCheckResult) : List Incident × Nat :=
  match r.process with
  | some p =>
      if p.running then ([], n)
      else
        ([{ id := mkIncidentId (n + 1)
            agent_name := some r.agent_name
            incident_type := .process_crash
            severity := .critical
            description := "Agent " ++ r.agent_name ++ " process is not running"
            suggested_actions := ["Restart the agent process",
              "Check system logs for crash reason",
              "Verify sufficient system resources"]
            requires_human := false }], n + 1)
  | none => ([], n)

/-- The health-endpoint rules of `diagnose_agent`: hang/endpoint failure for
an unhealthy endpoint (reproducing the source's severity ternary, which tests
the just-chosen type against HIGH_LATENCY), and the >5000 ms latency rule for
a healthy one. -/
def healthIncidents (n : Nat) (r : HealthCheckResult) : List Incident × Nat :=
  match r.health_endpoint with
  | some he =>
      if ¬ he.healthy then
        let ity := if he.error = some "Timeout" then IncidentType.process_hang
                   else IncidentType.health_endpoint_failure
        ([{ id := mkIncidentId (n + 1)
            agent_name := some r.agent_name
            incident_type := ity
            severity := if ity = IncidentType.high_latency then .warning else .critical
            description := "Agent " ++ r.agent_name ++ " health endpoint problem"
            suggested_actions := ["Check agent logs for errors",
              "Restart if unresponsive",
              "Verify network connectivity"]
            requires_human := false }], n + 1)
      else if he.latency_ms.getD 0 > 5000 then
        ([{ id := mkIncidentId (n + 1)
            agent_name := some r.agent_name
            incident_type := .high_latency
            severity := .warning
            description := "Agent " ++ r.agent_name ++ " responding slowly"
            suggested_actions := ["Monitor for further degradation",
              "Check system resource usage",
              "Consider restart if persists"]
            requires_human := false }], n + 1)
      else ([], n)
  | none => ([], n)

/-- The transaction-failures rule of `diagnose_agent` (always
`requires_human`). -/
def txIncidents (n : Nat) (r : HealthCheckResult) : List Incident × Nat :=
  match r.transactions with
  | some tx =>
      if tx.failed > 0 then
        ([{ id := mkIncidentId (n + 1)
            agent_name := some r.agent_name
            incident_type := .transaction_failures
            severity := .warning
            description := "Agent " ++ r.agent_name ++ " has failed transactions"
            suggested_actions := ["Investigate transaction failure reasons",
              "Check account balances (devnet SOL)",
              "Verify program IDs are correct",
              "Check for RPC issues"]
            requires_human := true }], n + 1)
      else ([], n)
  | none => ([], n)

/-- `Diagnoser.diagnose_agent`: returns immediately on a HEALTHY status,
otherwise applies the three rule groups in source order. -/
def diagnose_agent (n : Nat) (r : HealthCheckResult) : List Incident × Nat :=
  if r.status = .healthy then ([], n)
  else
    let pr := procIncidents n r
    let he := healthIncidents pr.2 r
    let tx := txIncidents he.2 r
    (pr.1 ++ he.1 ++ tx.1, tx.2)

/-! ## Recoverer (src/recoverer.py) -/

/-- `RecoveryAction`. -/
inductive RecoveryAction where
  | restart_process
  | switch_rpc
  | apply_cooldown
  | clear_cache
  | alert_human
  | no_action
deriving DecidableEq

/-- `RecoveryStatus` (`partRecovered` renders the source's PARTIAL value). -/
inductive RecoveryStatus where
  | pending
  | in_progress
  | success
  | partRecovered
  | failed
  | skipped
deriving DecidableEq

/-- The keys the source stores in a plan's `parameters` dict. -/
structure PlanParams where
  command : Option String := none
  process_name : Option String := none
  backoff_seconds : Option Int := none
  force : Bool := false
  cooldown_seconds : Option Int := none
deriving DecidableEq

/-- `RecoveryPlan`. -/
structure RecoveryPlan where
  incident_id : String
  action : RecoveryAction
  agent_name : Option String
  parameters : PlanParams := {}
  requires_human : Bool := false
  reason : String := ""
deriving DecidableEq

/-- The keys the source stores in a result's `details` dict. -/
structure ResultDetails where
  method : Option String := none
  new_endpoint : Option String := none
  backoff_applied : Option Int := none
  cooldown_seconds : Option Int := none
deriving DecidableEq

/-- `RecoveryResult` (timestamp and wall-clock duration omitted). -/
structure RecoveryResult where
  incident_id : String
  action : RecoveryAction
  status : RecoveryStatus
  message : String := ""
  details : ResultDetails := {}
deriving DecidableEq

/-- The `Recoverer` instance state: per-agent restart attempt times and the
backup RPC endpoint rotation. -/
structure Recoverer where
  restart_attempts : List (String × List Int) := []
  rpc_endpoints : List String := ["https://api.devnet.solana.com"]
  current_rpc_index : Nat := 0
deriving DecidableEq

/-- `Recoverer._get_restart_count` with the default 30-minute window: counts
attempts newer than `now - 1800` seconds (the source also prunes the stored
list to the same set, which does not change any later count). -/
def Recoverer.get_restart_count (rec : Recoverer) (agent_name : String) (now : Int) : Nat :=
  match rec.restart_attempts.lookup agent_name with
  | none => 0
  | some ts => (ts.filter (fun t => t > now - 30 * 60)).length

/-- `Recoverer._record_restart`. -/
def Recoverer.record_restart (rec : Recoverer) (agent_name : String) (now : Int) : Recoverer :=
  match rec.restart_attempts.lookup agent_name with
  | none => { rec with restart_attempts := rec.restart_attempts ++ [(agent_name, [now])] }
  | some _ =>
      { rec with restart_attempts :=
          rec.restart_attempts.map (fun p => if p.1 = agent_name then (p.1, p.2 ++ [now]) else p) }

/-- `Recoverer.plan_action`; `agents` renders `config.get_agent`. -/
def plan_action (agents : String → Option AgentConfig) (rec : Recoverer) (now : Int)
    (incident : Incident) : RecoveryPlan :=
  if incident.requires_human then
    { incident_id := incident.id
      action := .alert_human
      agent_name := incident.agent_name
      requires_human := true
      reason := incident.description }
  else if incident.incident_type = .process_crash then
    match incident.agent_name.bind agents with
    | some agent =>
        let restart_count := rec.get_restart_count agent.name now
        if restart_count ≥ agent.max_restarts then
          { incident_id := incident.id
            action := .alert_human
            agent_name := some agent.name
            requires_human := true
            reason := "Max restarts (" ++ toString agent.max_restarts ++ ") exceeded in 30 minutes" }
        else
          { incident_id := incident.id
            action := .restart_process
            agent_name := some agent.name
            parameters :=
              { command := agent.restart_command
                process_name := agent.process_name
                backoff_seconds := some (agent.restart_backoff_seconds * ((restart_count : Int) + 1)) } }
    | none =>
        { incident_id := incident.id
          action := .no_action
          agent_name := incident.agent_name
          reason := "No automated recovery available" }
  else if incident.incident_type = .process_hang then
    { incident_id := incident.id
      action := .restart_process
      agent_name := incident.agent_name
      parameters := { force := true } }
  else if incident.incident_type = .rpc_rate_limited then
    { incident_id := incident.id
      action := .apply_cooldown
      agent_name := none
      parameters := { cooldown_seconds := some 60 } }
  else if incident.incident_type = .rpc_unavailable then
    { incident_id := incident.id
      action := .switch_rpc
      agent_name := none }
  else if incident.incident_type = .transaction_failures then
    { incident_id := incident.id
      action := .alert_human
      agent_name := incident.agent_name
      requires_human := true
      reason := "Transaction failures require investigation" }
  else
    { incident_id := incident.id
      action := .no_action
      agent_name := incident.agent_name
      reason := "No automated recovery available" }

/-- Side effects `Recoverer.execute` can perform. -/
inductive RecEffect where
  | sleep (seconds : Int)
  | runCustomCommand (cmd : String)
  | runSystemctlRestart (process : String)
  | runDockerRestart (process : String)
  | switchEndpoint (url : String)
deriving DecidableEq

/-- Outcomes of the subprocess calls `execute` may attempt. -/
structure ExecEnv where
  customCommandOk : Bool := false
  systemctlOk : Bool := false
  dockerOk : Bool := false
deriving DecidableEq

/-- A successful restart result for the given method. -/
def mkRestartSuccess (plan : RecoveryPlan) (msg method : String) (backoff : Int) :
    RecoveryResult :=
  { incident_id := plan.incident_id
    action := plan.action
    status := .success
    message := msg
    details := { method := some method, backoff_applied := some backoff } }

/-- The systemctl-then-docker tail of `Recoverer._execute_restart`, entered
after the custom command was absent or failed. -/
def Recoverer.restart_fallback (rec : Recoverer) (env : ExecEnv) (now : Int)
    (plan : RecoveryPlan) (agent_label process_name : String) (backoff : Int)
    (fx : List RecEffect) : RecoveryResult × Recoverer × List RecEffect :=
  let fx1 := fx ++ [RecEffect.runSystemctlRestart process_name]
  if env.systemctlOk then
    (mkRestartSuccess plan ("Restarted " ++ process_name ++ " via systemctl") "systemctl" backoff,
     rec.record_restart agent_label now, fx1)
  else
    let fx2 := fx1 ++ [RecEffect.runDockerRestart process_name]
    if env.dockerOk then
      (mkRestartSuccess plan ("Restarted " ++ process_name ++ " via docker") "docker" backoff,
       rec.record_restart agent_label now, fx2)
    else
      ({ incident_id := plan.incident_id
         action := plan.action
         status := .failed
         message := "Failed to restart " ++ agent_label ++ " via any method" },
       rec, fx2)

/-- `Recoverer._execute_restart`: sleeps the backoff, then tries the custom
command, systemctl and docker in order, recording the restart on the first
success. -/
def Recoverer.execute_restart (rec : Recoverer) (env : ExecEnv) (now : Int)
    (plan : RecoveryPlan) : RecoveryResult × Recoverer × List RecEffect :=
  let backoff := plan.parameters.backoff_seconds.getD 0
  let fx0 : List RecEffect := if backoff > 0 then [RecEffect.sleep backoff] else []
  let agent_label := plan.agent_name.getD ""
  let process_name := plan.parameters.process_name.getD agent_label
  match plan.parameters.command with
  | some cmd =>
      let fx1 := fx0 ++ [RecEffect.runCustomCommand cmd]
      if env.customCommandOk then
        (mkRestartSuccess plan ("Restarted " ++ agent_label ++ " via custom command")
           "custom_command" backoff,
         rec.record_restart agent_label now, fx1)
      else rec.restart_fallback env now plan agent_label process_name backoff fx1
  | none => rec.restart_fallback env now plan agent_label process_name backoff fx0

/-- `Recoverer.execute`: dispatches on the plan's action.  Note that, as in
the source, no branch consults a `CircuitBreaker` and no branch records a
success or failure on one. -/
def Recoverer.execute (rec : Recoverer) (env : ExecEnv) (now : Int)
    (plan : RecoveryPlan) : RecoveryResult × Recoverer × List RecEffect :=
  match plan.action with
  | .restart_process => rec.execute_restart env now plan
  | .switch_rpc =>
      let idx := (rec.current_rpc_index + 1) % rec.rpc_endpoints.length
      let new_rpc := rec.rpc_endpoints.getD idx ""
      ({ incident_id := plan.incident_id
         action := plan.action
         status := .success
         message := "Switched to RPC endpoint: " ++ new_rpc
         details := { new_endpoint := some new_rpc } },
       { rec with current_rpc_index := idx },
       [RecEffect.switchEndpoint new_rpc])
  | .apply_cooldown =>
      let cooldown := plan.parameters.cooldown_seconds.getD 60
      ({ incident_id := plan.incident_id
         action := plan.action
         status := .success
         message := "Applied cooldown"
         details := { cooldown_seconds := some cooldown } },
       rec, [RecEffect.sleep cooldown])
  | .alert_human =>
      ({ incident_id := plan.incident_id
         action := plan.action
         status := .skipped
         message := "Human intervention required: " ++ plan.reason },
       rec, [])
  | .no_action =>
      ({ incident_id := plan.incident_id
         action := plan.action
         status := .skipped
         message := "No action taken" },
       rec, [])
  | .clear_cache =>
      ({ incident_id := plan.incident_id
         action := plan.action
         status := .skipped
         message := "Unknown action" },
       rec, [])

/-! ## Verifier (src/verifier.py) -/

/-- The default devnet endpoint (`solana_rpc.DEVNET_RPC`). -/
def DEVNET_RPC : String := "https://api.devnet.solana.com"

/-- Observations `Verifier.verify` can make after the settle delay. -/
inductive VerEffect where
  | sleep (seconds : Int)
  | checkProcess (process : String)
  | checkAgentHealth (agent : String)
  | checkRpcHealth (url : String)
  | checkDevnetHealth
deriving DecidableEq

/-- Outcomes of the re-observations the verifier may perform. -/
structure VerifierEnv where
  process_running : String → Bool := fun _ => true
  agent_status : String → AgentStatus := fun _ => .healthy
  rpc_healthy : String → Bool := fun _ => true
  devnet_healthy : Bool := true

/-- `VerificationResult` (timestamp and details dict omitted). -/
structure VerificationResult where
  incident_id : String
  verified : Bool
  checks_passed : Nat
  checks_failed : Nat
  message : String := ""
deriving DecidableEq

/-- `Verifier._verify_restart`: re-checks process liveness and, when a health
endpoint is configured, a full agent health check. -/
def verify_restart (agents : String → Option AgentConfig) (env : VerifierEnv)
    (plan : RecoveryPlan) (sleepFx : List VerEffect) :
    VerificationResult × List VerEffect :=
  let agentOpt := plan.agent_name.bind agents
  let procPart : Nat × Nat × List VerEffect :=
    match agentOpt with
    | some a =>
        match a.process_name with
        | some pn =>
            if env.process_running pn then (1, 0, [VerEffect.checkProcess pn])
            else (0, 1, [VerEffect.checkProcess pn])
        | none => (0, 0, [])
    | none => (0, 0, [])
  let healthPart : Nat × Nat × List VerEffect :=
    match agentOpt with
    | some a =>
        if a.health_endpoint.isSome then
          if env.agent_status a.name = .healthy then (1, 0, [VerEffect.checkAgentHealth a.name])
          else (0, 1, [VerEffect.checkAgentHealth a.name])
        else (0, 0, [])
    | none => (0, 0, [])
  let passed := procPart.1 + healthPart.1
  let failedCount := procPart.2.1 + healthPart.2.1
  ({ incident_id := plan.incident_id
     verified := decide (passed > 0 ∧ failedCount = 0)
     checks_passed := passed
     checks_failed := failedCount
     message := "Process restart verification" },
   sleepFx ++ procPart.2.2 ++ healthPart.2.2)

/-- `Verifier.verify`: sleeps the settle delay first (for every status), then
short-circuits Skipped/Failed results to unverified, and otherwise re-checks
the state relevant to the action taken. -/
def Verifier.verify (agents : String → Option AgentConfig) (env : VerifierEnv)
    (delay : Int) (plan : RecoveryPlan) (result : RecoveryResult) :
    VerificationResult × List VerEffect :=
  let sleepFx := [VerEffect.sleep delay]
  if result.status = .skipped ∨ result.status = .failed then
    ({ incident_id := plan.incident_id
       verified := false
       checks_passed := 0
       checks_failed := 0
       message := "Verification skipped - recovery did not execute" },
     sleepFx)
  else if plan.action = .restart_process then
    verify_restart agents env plan sleepFx
  else if plan.action = .switch_rpc then
    let ep := result.details.new_endpoint.getD DEVNET_RPC
    let ok := env.rpc_healthy ep
    ({ incident_id := plan.incident_id
       verified := ok
       checks_passed := if ok then 1 else 0
       checks_failed := if ok then 0 else 1
       message := "RPC switch verification" },
     sleepFx ++ [VerEffect.checkRpcHealth ep])
  else if plan.action = .apply_cooldown then
    let ok := env.devnet_healthy
    ({ incident_id := plan.incident_id
       verified := ok
       checks_passed := if ok then 1 else 0
       checks_failed := if ok then 0 else 1
       message := "Cooldown verification" },
     sleepFx ++ [VerEffect.checkDevnetHealth])
  else
    let ok := decide (result.status = .success)
    ({ incident_id := plan.incident_id
       verified := ok
       checks_passed := if ok then 1 else 0
       checks_failed := if ok then 0 else 1
       message := "Verification based on recovery status" },
     sleepFx)

/-! ## Heartbeat scheduler (src/heartbeat.py) and the Gemini deep check
(src/main.py) -/

/-- Outcome of one registered heartbeat check: returned true, returned
false, or raised (message truncation not modelled). -/
inductive CheckOutcome where
  | pass
  | fail
  | err (msg : String)
deriving DecidableEq

/-- The structured analysis a successful Tier1 (Gemini) call returns. -/
structure GeminiAnalysis where
  severity : String := "unknown"
  summary : String := ""
  action : String := "none"
  needs_claude : Bool := false
  reason : String := ""
deriving DecidableEq

/-- How a Tier1 call would go: the `gemini_bridge` module missing
(ImportError), the call raising, or a structured analysis. -/
inductive GeminiOutcome where
  | unavailable
  | failure
  | ok (analysis : GeminiAnalysis)
deriving DecidableEq

/-- The cross-tick heartbeat state (`Heartbeat.state`). -/
structure HBState where
  consecutive_failures : Nat := 0
  consecutive_healthy : Nat := 0
  total_alerts : Nat := 0
  total_gemini_calls : Nat := 0
  total_claude_wakes : Nat := 0
  last_ai_call_time : Option Int := none
  last_gemini_call_time : Option Int := none
deriving DecidableEq

/-- `Heartbeat.min_seconds_between_gemini`. -/
def minSecondsBetweenGemini : Int := 120

/-- `Heartbeat.min_seconds_between_ai_calls`. -/
def minSecondsBetweenAiCalls : Int := 300

/-- The alert strings one beat collects from its check outcomes. -/
def alertsOf (checks : List (String × CheckOutcome)) : List String :=
  checks.foldr
    (fun c acc =>
      match c.2 with
      | .pass => acc
      | .fail => (c.1 ++ " failed") :: acc
      | .err m => (c.1 ++ " error: " ++ m) :: acc)
    []

/-- Count of non-passing check outcomes. -/
def failedOf (checks : List (String × CheckOutcome)) : Nat :=
  (checks.filter (fun c => c.2 ≠ CheckOutcome.pass)).length

/-- `HeartbeatResult` (timestamp and beat number omitted). -/
structure BeatResult where
  checks_passed : Nat
  checks_failed : Nat
  alerts : List String
  gemini_analysis : Option GeminiAnalysis := none
deriving DecidableEq

/-- `HeartbeatResult.healthy`. -/
def BeatResult.healthy (r : BeatResult) : Bool :=
  r.checks_failed = 0 ∧ r.alerts = []

/-- `HeartbeatResult.needs_ai`. -/
def BeatResult.needs_ai (r : BeatResult) : Bool := ¬ r.healthy

/-- `HeartbeatResult.needs_claude`: false whenever no Gemini analysis is
attached — in particular after a failed Gemini call. -/
def BeatResult.needs_claude (r : BeatResult) : Bool :=
  match r.gemini_analysis with
  | some a => a.needs_claude
  | none => false

/-- `Heartbeat._gemini_call_allowed`. -/
def geminiCallAllowed (s : HBState) (now : Int) : Bool :=
  match s.last_gemini_call_time with
  | none => true
  | some t => now - t ≥ minSecondsBetweenGemini

/-- `Heartbeat._claude_call_allowed`. -/
def claudeCallAllowed (s : HBState) (now : Int) : Bool :=
  match s.last_ai_call_time with
  | none => true
  | some t => now - t ≥ minSecondsBetweenAiCalls

/-- `Heartbeat._ask_gemini`: on ImportError nothing is recorded and no
analysis is returned; otherwise the call counter and timestamp are updated
before the call, whose failure also yields no analysis. -/
def askGemini (s : HBState) (now : Int) (g : GeminiOutcome) :
    Option GeminiAnalysis × HBState :=
  match g with
  | .unavailable => (none, s)
  | .failure =>
      (none, { s with total_gemini_calls := s.total_gemini_calls + 1
                      last_gemini_call_time := some now })
  | .ok a =>
      (some a, { s with total_gemini_calls := s.total_gemini_calls + 1
                        last_gemini_call_time := some now })

/-- The consecutive-failure/healthy counter update at the top of
`Heartbeat.beat` (step 4 in the source). -/
def updateConsecutive (s : HBState) (healthy : Bool) : HBState :=
  if healthy then
    { s with consecutive_failures := 0
             consecutive_healthy := s.consecutive_healthy + 1 }
  else
    { s with consecutive_failures := s.consecutive_failures + 1
             consecutive_healthy := 0
             total_alerts := s.total_alerts + 1 }

/-- Step 5 of `Heartbeat.beat`: ask Gemini only on an alert and only when the
rate-limit window allows it; skipped calls are not queued. -/
def geminiStep (r0 : BeatResult) (s1 : HBState) (now : Int) (g : GeminiOutcome) :
    Option GeminiAnalysis × HBState :=
  if r0.needs_ai ∧ geminiCallAllowed s1 now then askGemini s1 now g
  else (none, s1)

/-- Step 6 of `Heartbeat.beat`: wake Claude when the analysis asked for it
and the wake-up rate limit allows. -/
def claudeStep (r1 : BeatResult) (s2 : HBState) (now : Int) :
    BeatResult × HBState × Bool :=
  if r1.needs_claude ∧ claudeCallAllowed s2 now then
    (r1,
     { s2 with total_claude_wakes := s2.total_claude_wakes + 1
               last_ai_call_time := some now },
     true)
  else (r1, s2, false)

/-- `Heartbeat.beat`: local checks, state update, the rate-limited Gemini
consultation on an alert, and the rate-limited Claude wake-up when Gemini
asked for it.  Returns the result, the new state, and whether Claude was
woken this tick. -/
def beat (s : HBState) (now : Int) (checks : List (String × CheckOutcome))
    (g : GeminiOutcome) : BeatResult × HBState × Bool :=
  let failedCount := failedOf checks
  let r0 : BeatResult :=
    { checks_passed := checks.length - failedCount
      checks_failed := failedCount
      alerts := alertsOf checks }
  let s1 := updateConsecutive s r0.healthy
  let step2 := geminiStep r0 s1 now g
  claudeStep { r0 with gemini_analysis := step2.1 } step2.2 now

/-- `AgentMedic.run_gemini_check` (main.py), as a function of how the Tier1
call would go: ImportError and any exception both fall back to Claude
(return true); a structured analysis escalates iff it asks to. -/
def runGeminiCheck (g : GeminiOutcome) : Bool :=
  match g with
  | .unavailable => true
  | .failure => true
  | .ok a => a.needs_claude || decide (a.action = "escalate_to_claude")

/-- One scheduler tick's inputs for the heartbeat. -/
structure Tick where
  time : Int
  checks : List (String × CheckOutcome)
  gemini : GeminiOutcome
deriving DecidableEq

/-- Folding `Heartbeat.beat` over a sequence of ticks. -/
def runBeats (s : HBState) : List Tick → HBState
  | [] => s
  | t :: rest => runBeats (beat s t.time t.checks t.gemini).2.1 rest

/-! ## Theorems -/

/-- C2: with the default configuration, five consecutive `record_failure`
calls from Closed leave the breaker Open with `can_execute` false while less
than `timeout_seconds` (30 s) have passed since the last failure; once 30 s
have elapsed the next `can_execute` call returns true and moves the state to
HalfOpen; two `record_success` calls in HalfOpen return it to Closed with
`failure_count = 0`; and `record_success` while Closed resets
`failure_count` to 0. -/
theorem c2_breaker_lifecycle (t1 t2 t3 t4 t5 tq tw : Int)
    (hq : tq - t5 < 30) (hw : tw - t5 ≥ 30)
    (cbC : CircuitBreaker) (hC : cbC.state = .closed) :
    (failFive t1 t2 t3 t4 t5).state = .opened ∧
    ((failFive t1 t2 t3 t4 t5).can_execute tq).1 = false ∧
    ((failFive t1 t2 t3 t4 t5).can_execute tw).1 = true ∧
    ((failFive t1 t2 t3 t4 t5).can_execute tw).2.state = .halfOpen ∧
    ((((failFive t1 t2 t3 t4 t5).can_execute tw).2.record_success).record_success).state
      = .closed ∧
    ((((failFive t1 t2 t3 t4 t5).can_execute tw).2.record_success).record_success).failure_count
      = 0 ∧
    (cbC.record_success).failure_count = 0 := by
  have h5 : failFive t1 t2 t3 t4 t5 =
      { name := "solana_rpc"
        state := .opened
        failure_count := 5
        success_count := 0
        last_failure_time := some t5 } := rfl
  have hqn : ¬ ((30 : Int) ≤ tq - t5) := by omega
  refine ⟨by rw [h5], ?_, ?_, ?_, ?_, ?_, ?_⟩
  · simp [h5, CircuitBreaker.can_execute, CircuitBreaker.timeout_expired,
      CircuitBreakerConfig.timeout_seconds, hqn]
  · simp [h5, CircuitBreaker.can_execute, CircuitBreaker.timeout_expired,
      CircuitBreakerConfig.timeout_seconds, hw]
  · simp [h5, CircuitBreaker.can_execute, CircuitBreaker.timeout_expired,
      CircuitBreakerConfig.timeout_seconds, hw]
  · simp [h5, CircuitBreaker.can_execute, CircuitBreaker.timeout_expired,
      CircuitBreakerConfig.timeout_seconds, hw, CircuitBreaker.record_success,
      CircuitBreaker.closeCircuit]
  · simp [h5, CircuitBreaker.can_execute, CircuitBreaker.timeout_expired,
      CircuitBreakerConfig.timeout_seconds, hw, CircuitBreaker.record_success,
      CircuitBreaker.closeCircuit]
  · simp [CircuitBreaker.record_success, hC]

/-- Witness for C2 at concrete times 0,1,2,3,4 with the blocked probe at 10
and the expired-timeout probe at 40, and a fresh default breaker for the
Closed-state reset. -/
theorem c2_witness :
    (failFive 0 1 2 3 4).state = .opened ∧
    ((failFive 0 1 2 3 4).can_execute 10).1 = false ∧
    ((failFive 0 1 2 3 4).can_execute 40).1 = true ∧
    ((failFive 0 1 2 3 4).can_execute 40).2.state = .halfOpen ∧
    ((((failFive 0 1 2 3 4).can_execute 40).2.record_success).record_success).state
      = .closed ∧
    ((((failFive 0 1 2 3 4).can_execute 40).2.record_success).record_success).failure_count
      = 0 ∧
    (defaultBreaker.record_success).failure_count = 0 :=
  c2_breaker_lifecycle 0 1 2 3 4 10 40 (by decide) (by decide) defaultBreaker rfl

/-- Looking a key up after mapping a function over the stored items applies
that function to the lookup result. -/
lemma lookup_map_values (f : QuarantinedItem → QuarantinedItem)
    (l : List (String × QuarantinedItem)) (k : String) :
    (l.map (fun p => (p.1, f p.2))).lookup k = (l.lookup k).map f := by
  induction l with
  | nil => rfl
  | cons hd tl ih =>
      obtain ⟨a, b⟩ := hd
      by_cases h : k = a
      · subst h
        simp [List.lookup_cons]
      · simp [List.lookup_cons, beq_false_of_ne h, ih]

/-- Looking up the updated key after `setItem` returns the new value when the
key was present. -/
lemma lookup_set (l : List (String × QuarantinedItem)) (k : String)
    (v : QuarantinedItem) :
    (l.map (fun p => if p.1 = k then (k, v) else p)).lookup k =
      (l.lookup k).map (fun _ => v) := by
  induction l with
  | nil => rfl
  | cons hd tl ih =>
      obtain ⟨a, b⟩ := hd
      by_cases h : a = k
      · subst h
        simp [List.lookup_cons]
      · simp [List.lookup_cons, if_neg h, beq_false_of_ne (Ne.symm h), ih]

/-- `checkVerification` never changes the confirmation count. -/
lemma checkVerification_confirmations (now : Int) (item : QuarantinedItem) :
    (checkVerification now item).confirmations = item.confirmations := by
  unfold checkVerification
  split <;> rfl

/-- First submission of the C3 scenario: a threat item (2 confirmations
required, 360-minute quarantine window) submitted at time 0 by source A. -/
def c3qs0 : QuarantineSystem :=
  ((QuarantineSystem.mk []).submit idFn 0 "threat" "evt" "A").2

/-- C3, counterexample: with the threat item of `c3qs0` (expiry time 360)
still Pending, a confirmation arriving at time 400 — after the expiry time
has passed, but before any listing of pending items — still transitions the
item from Pending to Verified, contradicting the claim that reaching
Verified requires the expiry time not to have passed. -/
theorem c3_counterexample :
    (c3qs0.find? "evt").map QuarantinedItem.status = some .pending ∧
    (c3qs0.find? "evt").map QuarantinedItem.expires_at = some 360 ∧
    ((360 : Int) < 400) ∧
    ((c3qs0.confirm 400 "evt" "B" "").2.find? "evt").map QuarantinedItem.status
      = some .verified := by
  refine ⟨rfl, rfl, by decide, rfl⟩

/-- C3, amended: a Pending item transitions to Verified as soon as its
confirmation count reaches `required_confirmations`, with no check of the
expiry time at that moment; a Pending item past its expiry becomes Expired
the next time pending items are listed, an Expired item is never trusted,
and confirmations on an Expired item are refused (so once marked Expired the
item cannot reach Verified). -/
theorem c3_amended :
    (∀ (now : Int) (item : QuarantinedItem), item.status = .pending →
       item.required_confirmations ≤ item.confirmations →
       (checkVerification now item).status = .verified) ∧
    (∀ (qs : QuarantineSystem) (now : Int) (item_id : String) (item : QuarantinedItem),
       qs.find? item_id = some item → item.status = .pending → now > item.expires_at →
       ((qs.get_pending now).2.find? item_id).map QuarantinedItem.status = some .expired) ∧
    (∀ (qs : QuarantineSystem) (genId : String → String) (content : String)
       (item : QuarantinedItem),
       qs.find? (genId content) = some item → item.status = .expired →
       qs.is_trusted genId content = false) ∧
    (∀ (qs : QuarantineSystem) (now : Int) (item_id source notes : String)
       (item : QuarantinedItem),
       qs.find? item_id = some item → item.status = .expired →
       (qs.confirm now item_id source notes).1 = false ∧
       (qs.confirm now item_id source notes).2 = qs) := by
  refine ⟨?_, ?_, ?_, ?_⟩
  · intro now item hp hc
    simp [checkVerification, hc]
  · intro qs now item_id item hfind hp hexp
    have : (qs.get_pending now).2.find? item_id = some (expireItem now item) := by
      show (qs.expire_old_items now).find? item_id = _
      unfold QuarantineSystem.expire_old_items QuarantineSystem.find?
      rw [lookup_map_values]
      unfold QuarantineSystem.find? at hfind
      rw [hfind]
      rfl
    rw [this]
    simp [expireItem, hp, hexp]
  · intro qs genId content item hfind hexp
    unfold QuarantineSystem.is_trusted
    rw [hfind]
    simp [hexp]
  · intro qs now item_id source notes item hfind hexp
    unfold QuarantineSystem.confirm
    rw [hfind]
    simp [hexp]

/-- Witness for C3 (amended): the threat item of `c3qs0` is Pending with
expiry 360, and listing pending items at time 400 marks it Expired. -/
theorem c3_witness :
    ((c3qs0.get_pending 400).2.find? "evt").map QuarantinedItem.status = some .expired :=
  c3_amended.2.1 c3qs0 400 "evt"
    (((QuarantineSystem.mk []).submit idFn 0 "threat" "evt" "A").1) rfl rfl (by decide)

/-- The quarantine system after source oracle-A submits the threat content
"rug-pull" once at time 0. -/
def c4qs0 : QuarantineSystem :=
  ((QuarantineSystem.mk []).submit idFn 0 "threat" "rug-pull" "oracle-A").2

/-- C4: the duplicate-source check in `submit` compares the raw source name
against annotated review-note strings ("Submitted by: X"), which never
match, so resubmission of identical content by the original source counts as
a fresh confirmation — a threat item requiring 2 confirmations becomes
Verified from the single source oracle-A; and `confirm` increments the count
of any Pending item with no source-uniqueness check at all. -/
theorem c4_single_source_verified :
    (c4qs0.find? "rug-pull").map QuarantinedItem.status = some .pending ∧
    ((c4qs0.submit idFn 5 "threat" "rug-pull" "oracle-A").1.status = .verified) ∧
    (c4qs0.is_trusted idFn "rug-pull" = false ∧
      (c4qs0.submit idFn 5 "threat" "rug-pull" "oracle-A").2.is_trusted idFn "rug-pull" = true) ∧
    (∀ source : String, source ∉ (["Submitted by: " ++ source] : List String)) ∧
    (∀ (qs : QuarantineSystem) (now : Int) (item_id source notes : String)
       (item : QuarantinedItem),
       qs.find? item_id = some item → item.status = .pending →
       (qs.confirm now item_id source notes).1 = true ∧
       ((qs.confirm now item_id source notes).2.find? item_id).map
         QuarantinedItem.confirmations = some (item.confirmations + 1)) := by
  refine ⟨rfl, rfl, ⟨rfl, rfl⟩, ?_, ?_⟩
  · intro source hmem
    have heq : source = "Submitted by: " ++ source := by simpa using hmem
    have hlen := congrArg String.length heq
    rw [String.length_append] at hlen
    have h14 : ("Submitted by: ").length = 14 := rfl
    omega
  · intro qs now item_id source notes item hfind hp
    unfold QuarantineSystem.confirm
    rw [hfind]
    simp only [hp, reduceIte]
    refine ⟨trivial, ?_⟩
    unfold QuarantineSystem.setItem QuarantineSystem.find?
    rw [lookup_set]
    unfold QuarantineSystem.find? at hfind
    rw [hfind]
    simp [checkVerification_confirmations]

/-- Witness for C4: applying the confirm-conjunct to the freshly submitted
rug-pull item shows a repeat confirmation is accepted and counted. -/
theorem c4_witness :
    (c4qs0.confirm 1 "rug-pull" "oracle-A" "").1 = true ∧
    ((c4qs0.confirm 1 "rug-pull" "oracle-A" "").2.find? "rug-pull").map
      QuarantinedItem.confirmations = some 2 :=
  c4_single_source_verified.2.2.2.2 c4qs0 1 "rug-pull" "oracle-A" ""
    (((QuarantineSystem.mk []).submit idFn 0 "threat" "rug-pull" "oracle-A").1) rfl rfl

/-- C6: for a ProcessCrash incident on a registered agent (diagnoser-created
ProcessCrash incidents always carry `requires_human = false`, taken here as a
hypothesis), `plan_action` returns AlertHuman with `requires_human` set and
the explicit max-restarts reason whenever the rolling-30-minute restart count
has reached `max_restarts`, and otherwise RestartProcess with
`backoff_seconds = restart_backoff_seconds * (restart_count + 1)`. -/
theorem c6_plan_process_crash (agents : String → Option AgentConfig)
    (rec : Recoverer) (now : Int) (incident : Incident) (name : String)
    (agent : AgentConfig)
    (hrh : incident.requires_human = false)
    (hty : incident.incident_type = .process_crash)
    (hname : incident.agent_name = some name)
    (hagent : agents name = some agent) :
    (rec.get_restart_count agent.name now ≥ agent.max_restarts →
      (plan_action agents rec now incident).action = .alert_human ∧
      (plan_action agents rec now incident).requires_human = true ∧
      (plan_action agents rec now incident).reason =
        "Max restarts (" ++ toString agent.max_restarts ++ ") exceeded in 30 minutes") ∧
    (rec.get_restart_count agent.name now < agent.max_restarts →
      (plan_action agents rec now incident).action = .restart_process ∧
      (plan_action agents rec now incident).parameters.backoff_seconds =
        some (agent.restart_backoff_seconds *
          ((rec.get_restart_count agent.name now : Int) + 1))) := by
  have hbind : incident.agent_name.bind agents = some agent := by
    rw [hname]
    simpa using hagent
  constructor
  · intro hge
    simp [plan_action, hrh, hty, hbind, hge]
  · intro hlt
    have hnge : ¬ (rec.get_restart_count agent.name now ≥ agent.max_restarts) := by omega
    simp [plan_action, hrh, hty, hbind, hnge]

/-- The registered-agent table for the C6 witness: one agent svc-A with the
default limits (`max_restarts = 3`, `restart_backoff_seconds = 60`). -/
def c6Agents : String → Option AgentConfig :=
  fun n => if n = "svc-A" then some { name := "svc-A" } else none

/-- A recoverer that already attempted three svc-A restarts inside the
rolling window. -/
def c6Rec : Recoverer := { restart_attempts := [("svc-A", [0, 100, 200])] }

/-- A diagnoser-style ProcessCrash incident for svc-A. -/
def c6Incident : Incident :=
  { id := "INC-0001"
    agent_name := some "svc-A"
    incident_type := .process_crash
    severity := .critical
    description := "Agent svc-A process is not running" }

/-- Witness for C6: with three restart attempts recorded in the window the
plan degrades to AlertHuman with the explicit reason. -/
theorem c6_witness :
    (plan_action c6Agents c6Rec 300 c6Incident).action = .alert_human ∧
    (plan_action c6Agents c6Rec 300 c6Incident).requires_human = true ∧
    (plan_action c6Agents c6Rec 300 c6Incident).reason =
      "Max restarts (3) exceeded in 30 minutes" :=
  (c6_plan_process_crash c6Agents c6Rec 300 c6Incident "svc-A" { name := "svc-A" }
    rfl rfl rfl (by decide)).1 (by decide)

/-- A SwitchDependencyEndpoint (SWITCH_RPC) plan. -/
def c1SwitchPlan : RecoveryPlan :=
  { incident_id := "INC-0002", action := .switch_rpc, agent_name := none }

/-- An ApplyCooldown plan with the planner's 60-second cooldown. -/
def c1CooldownPlan : RecoveryPlan :=
  { incident_id := "INC-0003"
    action := .apply_cooldown
    agent_name := none
    parameters := { cooldown_seconds := some 60 } }

/-- C1, counterexample: even while a dependency circuit breaker is Open
(five fresh failures, `can_execute` false), `execute` on a dependency-
targeted SWITCH_RPC plan performs the endpoint switch and returns Success —
not Skipped — because `Recoverer.execute` never consults any breaker (its
definition takes no breaker at all, mirroring recoverer.py). -/
theorem c1_counterexample :
    (failFive 0 1 2 3 4).state = .opened ∧
    ((failFive 0 1 2 3 4).can_execute 5).1 = false ∧
    (Recoverer.execute {} {} 5 c1SwitchPlan).1.status = .success ∧
    ¬ (Recoverer.execute {} {} 5 c1SwitchPlan).1.status = .skipped ∧
    (Recoverer.execute {} {} 5 c1SwitchPlan).2.2 =
      [RecEffect.switchEndpoint "https://api.devnet.solana.com"] := by
  decide

/-- C1, amended: `execute` never consults a circuit breaker; a SWITCH_RPC
plan always rotates to the next endpoint and returns Success, and an
APPLY_COOLDOWN plan always sleeps its cooldown and returns Success,
whatever the state of any breaker. -/
theorem c1_amended (rec : Recoverer) (env : ExecEnv) (now : Int)
    (plan : RecoveryPlan) :
    (plan.action = .switch_rpc →
      (rec.execute env now plan).1.status = .success ∧
      (rec.execute env now plan).2.2 =
        [RecEffect.switchEndpoint
          (rec.rpc_endpoints.getD ((rec.current_rpc_index + 1) % rec.rpc_endpoints.length) "")]) ∧
    (plan.action = .apply_cooldown →
      (rec.execute env now plan).1.status = .success ∧
      (rec.execute env now plan).2.2 =
        [RecEffect.sleep (plan.parameters.cooldown_seconds.getD 60)]) := by
  constructor <;> intro h <;> simp [Recoverer.execute, h]

/-- Witness for C1 (amended) on the cooldown plan. -/
theorem c1_witness :
    (Recoverer.execute {} {} 0 c1CooldownPlan).1.status = .success ∧
    (Recoverer.execute {} {} 0 c1CooldownPlan).2.2 = [RecEffect.sleep 60] :=
  (c1_amended {} {} 0 c1CooldownPlan).2 rfl

/-- The phrase "not running" occurs inside the process-down error string,
whatever the process name. -/
lemma notRunning_occurs (pname : String) :
    ("not running".toList) <:+: (processNotRunningError pname).toList := by
  refine ⟨"Process ".toList ++ pname.toList ++ [' '], [], ?_⟩
  unfold processNotRunningError
  simp only [String.toList, String.data_append, List.append_nil, List.append_assoc]
  have hsp : ([' '] : List Char) ++ "not running".data = " not running".data := rfl
  rw [hsp]

/-- A check-error list headed by a process-down error satisfies the
"not running" scan of `check_agent`. -/
lemma any_notRunning (pname : String) (rest : List String) :
    ((processNotRunningError pname) :: rest).any
      (fun e => decide (("not running".toList) <:+: e.toList)) = true := by
  simp only [List.any_cons, Bool.or_eq_true, decide_eq_true_eq]
  exact Or.inl (notRunning_occurs pname)

/-- `check_agent` stores the process probe result whenever a process name is
configured. -/
lemma check_agent_process (agent : AgentConfig) (env : ProbeEnv) (pname : String)
    (hp : agent.process_name = some pname) :
    (check_agent agent env).process = some env.process_result := by
  simp [check_agent, hp]

/-- `check_agent` stores the endpoint probe result whenever a health
endpoint is configured. -/
lemma check_agent_endpoint (agent : AgentConfig) (env : ProbeEnv) (u : String)
    (hhe : agent.health_endpoint = some u) :
    (check_agent agent env).health_endpoint = some env.health_result := by
  simp [check_agent, hhe]

/-- A configured process reported not running drives the overall status to
FAILED (the error scan finds "not running"). -/
lemma check_agent_status_failed (agent : AgentConfig) (env : ProbeEnv) (pname : String)
    (hp : agent.process_name = some pname)
    (hrun : env.process_result.running = false) :
    (check_agent agent env).status = .failed := by
  simp only [check_agent, hp, hrun, Option.isSome_some, Option.isNone_some, if_true,
    Bool.false_eq_true, if_false, false_and, List.singleton_append, List.cons_append,
    ne_eq, reduceCtorEq, not_false_iff, any_notRunning]

/-- With the process probe reporting not running, the process rule emits a
single Critical, non-human ProcessCrash incident. -/
lemma procIncidents_crash (n : Nat) (r : HealthCheckResult) (pc : ProcessCheck)
    (hp : r.process = some pc) (hrun : pc.running = false) :
    ∃ inc : Incident, (procIncidents n r).1 = [inc] ∧
      inc.incident_type = .process_crash ∧ inc.severity = .critical ∧
      inc.requires_human = false := by
  unfold procIncidents
  rw [hp]
  simp only [hrun, Bool.false_eq_true, if_false]
  exact ⟨_, rfl, rfl, rfl, rfl⟩

/-- The health-endpoint rules never emit a ProcessCrash incident. -/
lemma healthIncidents_no_crash (n : Nat) (r : HealthCheckResult) :
    ∀ i ∈ (healthIncidents n r).1, i.incident_type ≠ .process_crash := by
  intro i hi
  unfold healthIncidents at hi
  cases hhe : r.health_endpoint with
  | none => rw [hhe] at hi; simp at hi
  | some he =>
      rw [hhe] at hi
      cases hh : he.healthy with
      | false =>
          simp only [hh, Bool.false_eq_true, not_false_iff, if_true,
            List.mem_singleton] at hi
          subst hi
          split <;> simp
      | true =>
          simp only [hh, not_true, if_false] at hi
          by_cases hl : he.latency_ms.getD 0 > 5000
          · rw [if_pos hl] at hi
            simp only [List.mem_singleton] at hi
            subst hi
            simp
          · rw [if_neg hl] at hi
            simp at hi

/-- The transaction rule never emits a ProcessCrash incident. -/
lemma txIncidents_no_crash (n : Nat) (r : HealthCheckResult) :
    ∀ i ∈ (txIncidents n r).1, i.incident_type ≠ .process_crash := by
  intro i hi
  unfold txIncidents at hi
  cases htx : r.transactions with
  | none => rw [htx] at hi; simp at hi
  | some tx =>
      rw [htx] at hi
      by_cases hf : tx.failed > 0
      · simp only [hf, if_true] at hi
        simp only [List.mem_singleton] at hi
        subst hi
        simp
      · simp [hf] at hi

/-- The process rule never emits a HighLatency incident. -/
lemma procIncidents_no_latency (n : Nat) (r : HealthCheckResult) :
    ∀ i ∈ (procIncidents n r).1, i.incident_type ≠ .high_latency := by
  intro i hi
  unfold procIncidents at hi
  cases hp : r.process with
  | none => rw [hp] at hi; simp at hi
  | some p =>
      rw [hp] at hi
      cases hr : p.running with
      | true => simp [hr] at hi
      | false =>
          simp only [hr, Bool.false_eq_true, if_false, List.mem_singleton] at hi
          subst hi
          simp

/-- The transaction rule never emits a HighLatency incident. -/
lemma txIncidents_no_latency (n : Nat) (r : HealthCheckResult) :
    ∀ i ∈ (txIncidents n r).1, i.incident_type ≠ .high_latency := by
  intro i hi
  unfold txIncidents at hi
  cases htx : r.transactions with
  | none => rw [htx] at hi; simp at hi
  | some tx =>
      rw [htx] at hi
      by_cases hf : tx.failed > 0
      · simp only [hf, if_true] at hi
        simp only [List.mem_singleton] at hi
        subst hi
        simp
      · simp [hf] at hi

/-- A healthy endpoint with >5000 ms latency emits a single Warning
HighLatency incident. -/
lemma healthIncidents_latency (n : Nat) (r : HealthCheckResult)
    (he : HealthEndpointCheck) (hh : r.health_endpoint = some he)
    (hhe : he.healthy = true) (hl : he.latency_ms.getD 0 > 5000) :
    ∃ inc : Incident, (healthIncidents n r).1 = [inc] ∧
      inc.incident_type = .high_latency ∧ inc.severity = .warning ∧
      inc.requires_human = false := by
  unfold healthIncidents
  rw [hh]
  simp only [hhe, not_true, if_false, if_pos hl]
  exact ⟨_, rfl, rfl, rfl, rfl⟩

/-- A subject probed with both a process check and a health endpoint, with
the process down and the endpoint failing. -/
def c7Agent : AgentConfig :=
  { name := "svc-A"
    process_name := some "svc-A"
    health_endpoint := some "http://localhost:8080/health" }

/-- Probe outcomes for `c7Agent`: process not running, endpoint returning
500. -/
def c7Env : ProbeEnv :=
  { process_result := { running := false }
    health_result := { healthy := false, status_code := some 500 } }

/-- C7, counterexample: a subject whose process check reports not running
and whose health endpoint also fails yields two incidents for that subject,
not exactly one — the claim's count of one holds only for the ProcessCrash
incidents. -/
theorem c7_counterexample :
    c7Env.process_result.running = false ∧
    (diagnose_agent 0 (check_agent c7Agent c7Env)).1.length = 2 ∧
    (diagnose_agent 0 (check_agent c7Agent c7Env)).1.map Incident.agent_name =
      [some "svc-A", some "svc-A"] := by
  decide

/-- C7, amended: for every Observer-produced result whose process check
reports not running, the Diagnoser yields exactly one ProcessCrash incident
for that subject, with severity Critical and `requires_human = false`
(further incidents of other types may accompany it when other checks also
fail). -/
theorem c7_amended (agent : AgentConfig) (env : ProbeEnv) (n : Nat) (pname : String)
    (hp : agent.process_name = some pname)
    (hrun : env.process_result.running = false) :
    ((diagnose_agent n (check_agent agent env)).1.filter
        (fun i => i.incident_type = IncidentType.process_crash)).length = 1 ∧
    ∀ i ∈ (diagnose_agent n (check_agent agent env)).1,
      i.incident_type = IncidentType.process_crash →
      i.severity = .critical ∧ i.requires_human = false := by
  have hst := check_agent_status_failed agent env pname hp hrun
  have hrp := check_agent_process agent env pname hp
  have hne : ¬ ((check_agent agent env).status = .healthy) := by
    rw [hst]
    decide
  have hdiag : (diagnose_agent n (check_agent agent env)).1 =
      (procIncidents n (check_agent agent env)).1 ++
      ((healthIncidents (procIncidents n (check_agent agent env)).2
        (check_agent agent env)).1 ++
      (txIncidents (healthIncidents (procIncidents n (check_agent agent env)).2
          (check_agent agent env)).2
        (check_agent agent env)).1) := by
    unfold diagnose_agent
    rw [if_neg hne]
    simp
  obtain ⟨inc, hpr, hty, hsev, hreq⟩ :=
    procIncidents_crash n (check_agent agent env) env.process_result hrp hrun
  constructor
  · rw [hdiag, List.filter_append, List.filter_append, hpr]
    have h2 : ((healthIncidents (procIncidents n (check_agent agent env)).2
        (check_agent agent env)).1.filter
          (fun i => i.incident_type = IncidentType.process_crash)) = [] :=
      List.filter_eq_nil_iff.mpr (fun i hi => by
        simpa using healthIncidents_no_crash _ _ i hi)
    have h3 : ((txIncidents (healthIncidents (procIncidents n (check_agent agent env)).2
          (check_agent agent env)).2
        (check_agent agent env)).1.filter
          (fun i => i.incident_type = IncidentType.process_crash)) = [] :=
      List.filter_eq_nil_iff.mpr (fun i hi => by
        simpa using txIncidents_no_crash _ _ i hi)
    rw [h2, h3]
    simp [hty]
  · intro i hi hic
    rw [hdiag] at hi
    rcases List.mem_append.mp hi with h1 | h23
    · rw [hpr] at h1
      simp only [List.mem_singleton] at h1
      subst h1
      exact ⟨hsev, hreq⟩
    · rcases List.mem_append.mp h23 with h2 | h3
      · exact absurd hic (healthIncidents_no_crash _ _ i h2)
      · exact absurd hic (txIncidents_no_crash _ _ i h3)

/-- A subject probed only through its process check for the C7 witness. -/
def c7wAgent : AgentConfig := { name := "svc-A", process_name := some "svc-A" }

/-- Probe outcome for `c7wAgent`: process not running. -/
def c7wEnv : ProbeEnv := { process_result := { running := false } }

/-- Witness for C7 (amended) on a subject whose process probe reports not
running. -/
theorem c7_witness :
    ((diagnose_agent 0 (check_agent c7wAgent c7wEnv)).1.filter
      (fun i => i.incident_type = IncidentType.process_crash)).length = 1 :=
  (c7_amended c7wAgent c7wEnv 0 "svc-A" rfl rfl).1

/-- A subject probed only through its health endpoint. -/
def c9Agent : AgentConfig :=
  { name := "svc-B", health_endpoint := some "http://localhost:9090/health" }

/-- Probe outcome for `c9Agent`: healthy endpoint at 6000 ms latency. -/
def c9Env : ProbeEnv :=
  { health_result := { healthy := true, latency_ms := some 6000 } }

/-- C9, counterexample: a subject whose only anomaly is a healthy endpoint
with latency above 5000 ms is classified HEALTHY by the observer (high
latency alone records no error), so `diagnose_agent` returns early and no
HighLatency incident is produced. -/
theorem c9_counterexample :
    c9Env.health_result.healthy = true ∧
    c9Env.health_result.latency_ms.getD 0 > 5000 ∧
    (check_agent c9Agent c9Env).status = .healthy ∧
    (diagnose_agent 0 (check_agent c9Agent c9Env)).1 = [] := by
  decide

/-- C9, amended: for an Observer-produced result with a healthy endpoint
above 5000 ms latency, the Diagnoser yields exactly one HighLatency Warning
incident for the subject provided the overall status is not HEALTHY (which
requires some other check to have failed; high endpoint latency alone leaves
the subject HEALTHY and yields nothing, see the counterexample). -/
theorem c9_amended (agent : AgentConfig) (env : ProbeEnv) (n : Nat) (u : String)
    (hhe : agent.health_endpoint = some u)
    (hh : env.health_result.healthy = true)
    (hl : env.health_result.latency_ms.getD 0 > 5000)
    (hs : ¬ ((check_agent agent env).status = .healthy)) :
    ((diagnose_agent n (check_agent agent env)).1.filter
        (fun i => i.incident_type = IncidentType.high_latency)).length = 1 ∧
    ∀ i ∈ (diagnose_agent n (check_agent agent env)).1,
      i.incident_type = IncidentType.high_latency →
      i.severity = .warning ∧ i.requires_human = false := by
  have hre := check_agent_endpoint agent env u hhe
  have hdiag : (diagnose_agent n (check_agent agent env)).1 =
      (procIncidents n (check_agent agent env)).1 ++
      ((healthIncidents (procIncidents n (check_agent agent env)).2
        (check_agent agent env)).1 ++
      (txIncidents (healthIncidents (procIncidents n (check_agent agent env)).2
          (check_agent agent env)).2
        (check_agent agent env)).1) := by
    unfold diagnose_agent
    rw [if_neg hs]
    simp
  obtain ⟨inc, hhl, hty, hsev, hreq⟩ :=
    healthIncidents_latency (procIncidents n (check_agent agent env)).2
      (check_agent agent env) env.health_result hre hh hl
  constructor
  · rw [hdiag, List.filter_append, List.filter_append, hhl]
    have h1 : ((procIncidents n (check_agent agent env)).1.filter
          (fun i => i.incident_type = IncidentType.high_latency)) = [] :=
      List.filter_eq_nil_iff.mpr (fun i hi => by
        simpa using procIncidents_no_latency _ _ i hi)
    have h3 : ((txIncidents (healthIncidents (procIncidents n (check_agent agent env)).2
          (check_agent agent env)).2
        (check_agent agent env)).1.filter
          (fun i => i.incident_type = IncidentType.high_latency)) = [] :=
      List.filter_eq_nil_iff.mpr (fun i hi => by
        simpa using txIncidents_no_latency _ _ i hi)
    rw [h1, h3]
    simp [hty]
  · intro i hi hic
    rw [hdiag] at hi
    rcases List.mem_append.mp hi with h1 | h23
    · exact absurd hic (procIncidents_no_latency _ _ i h1)
    · rcases List.mem_append.mp h23 with h2 | h3
      · rw [hhl] at h2
        simp only [List.mem_singleton] at h2
        subst h2
        exact ⟨hsev, hreq⟩
      · exact absurd hic (txIncidents_no_latency _ _ i h3)

/-- A subject with a health endpoint and a monitored address, so that a
transaction failure can drive the status away from HEALTHY. -/
def c9wAgent : AgentConfig :=
  { name := "svc-B"
    health_endpoint := some "http://localhost:9090/health"
    solana_address := some "9xQeWvG816bUx9EPjHmaT23yvVM2ZWbrrpZb9PusVFin" }

/-- Probe outcomes for `c9wAgent`: healthy endpoint at 6000 ms latency plus
one failed transaction (so the status is DEGRADED). -/
def c9wEnv : ProbeEnv :=
  { health_result := { healthy := true, latency_ms := some 6000 }
    tx_result := { total_checked := 5, successful := 4, failed := 1 } }

/-- Witness for C9 (amended): with the transaction check also failing, the
6000 ms healthy endpoint yields exactly one HighLatency incident. -/
theorem c9_witness :
    ((diagnose_agent 0 (check_agent c9wAgent c9wEnv)).1.filter
      (fun i => i.incident_type = IncidentType.high_latency)).length = 1 :=
  (c9_amended c9wAgent c9wEnv 0 "http://localhost:9090/health" rfl rfl (by decide)
    (by decide)).1

/-- The consecutive-counter update leaves the Gemini call counter alone. -/
@[simp] lemma updateConsecutive_gemini_calls (s : HBState) (b : Bool) :
    (updateConsecutive s b).total_gemini_calls = s.total_gemini_calls := by
  unfold updateConsecutive
  split <;> rfl

/-- The consecutive-counter update leaves the Gemini call timestamp alone. -/
@[simp] lemma updateConsecutive_last_gemini (s : HBState) (b : Bool) :
    (updateConsecutive s b).last_gemini_call_time = s.last_gemini_call_time := by
  unfold updateConsecutive
  split <;> rfl

/-- The consecutive-counter update leaves the Claude wake counter alone. -/
@[simp] lemma updateConsecutive_claude_wakes (s : HBState) (b : Bool) :
    (updateConsecutive s b).total_claude_wakes = s.total_claude_wakes := by
  unfold updateConsecutive
  split <;> rfl

/-- Asking Gemini never touches the Claude wake counter. -/
@[simp] lemma askGemini_claude_wakes (s : HBState) (now : Int) (g : GeminiOutcome) :
    (askGemini s now g).2.total_claude_wakes = s.total_claude_wakes := by
  cases g <;> rfl

/-- The Claude step returns the result it was given. -/
@[simp] lemma claudeStep_fst (r1 : BeatResult) (s2 : HBState) (now : Int) :
    (claudeStep r1 s2 now).1 = r1 := by
  unfold claudeStep
  split <;> rfl

/-- The Claude step leaves the Gemini call counter alone. -/
@[simp] lemma claudeStep_gemini_calls (r1 : BeatResult) (s2 : HBState) (now : Int) :
    (claudeStep r1 s2 now).2.1.total_gemini_calls = s2.total_gemini_calls := by
  unfold claudeStep
  split <;> rfl

/-- The Claude step leaves the Gemini call timestamp alone. -/
@[simp] lemma claudeStep_last_gemini (r1 : BeatResult) (s2 : HBState) (now : Int) :
    (claudeStep r1 s2 now).2.1.last_gemini_call_time = s2.last_gemini_call_time := by
  unfold claudeStep
  split <;> rfl

/-- Without a request for Claude nothing is woken and the state is kept. -/
lemma claudeStep_no_claude (r1 : BeatResult) (s2 : HBState) (now : Int)
    (h : r1.needs_claude = false) : claudeStep r1 s2 now = (r1, s2, false) := by
  unfold claudeStep
  rw [if_neg]
  simp [h]

/-- A Tier1 call that fails, or finds the module unavailable, yields no
analysis whether or not it was attempted. -/
lemma geminiStep_no_analysis (r0 : BeatResult) (s1 : HBState) (now : Int)
    (g : GeminiOutcome) (hg : g = .failure ∨ g = .unavailable) :
    (geminiStep r0 s1 now g).1 = none := by
  rcases hg with h | h <;> subst h <;>
    (unfold geminiStep askGemini; split <;> rfl)

/-- The Gemini step never touches the Claude wake counter. -/
@[simp] lemma geminiStep_claude_wakes (r0 : BeatResult) (s1 : HBState) (now : Int)
    (g : GeminiOutcome) :
    (geminiStep r0 s1 now g).2.total_claude_wakes = s1.total_claude_wakes := by
  unfold geminiStep
  split
  · exact askGemini_claude_wakes s1 now g
  · rfl

/-- Inside the 120-second window after the last Gemini call the step is
skipped entirely. -/
lemma geminiStep_skip (r0 : BeatResult) (s1 : HBState) (now t0 : Int)
    (g : GeminiOutcome) (hlast : s1.last_gemini_call_time = some t0)
    (hwin : now - t0 < 120) : geminiStep r0 s1 now g = (none, s1) := by
  unfold geminiStep
  rw [if_neg]
  intro hcond
  have hallow := hcond.2
  unfold geminiCallAllowed at hallow
  rw [hlast] at hallow
  simp only [minSecondsBetweenGemini, decide_eq_true_eq] at hallow
  omega

/-- An available Gemini call bumps the counter and stamps the call time. -/
lemma askGemini_called (s : HBState) (now : Int) (g : GeminiOutcome)
    (hg : g ≠ .unavailable) :
    (askGemini s now g).2.total_gemini_calls = s.total_gemini_calls + 1 ∧
    (askGemini s now g).2.last_gemini_call_time = some now := by
  cases g with
  | unavailable => exact absurd rfl hg
  | failure => exact ⟨rfl, rfl⟩
  | ok a => exact ⟨rfl, rfl⟩

/-- A beat whose Gemini call fails or finds the module unavailable: the
result carries no analysis, `needs_claude` is false, Claude is not woken,
and the wake counter is unchanged — the failure is dropped for the tick,
not escalated. -/
lemma beat_no_analysis_char (s : HBState) (now : Int)
    (checks : List (String × CheckOutcome)) (g : GeminiOutcome)
    (hg : g = .failure ∨ g = .unavailable) :
    (beat s now checks g).1.gemini_analysis = none ∧
    (beat s now checks g).1.needs_claude = false ∧
    (beat s now checks g).2.2 = false ∧
    (beat s now checks g).2.1.total_claude_wakes = s.total_claude_wakes := by
  have hana : ∀ (r0 : BeatResult) (s1 : HBState),
      ({ r0 with gemini_analysis := (geminiStep r0 s1 now g).1 }
        : BeatResult).needs_claude = false := by
    intro r0 s1
    unfold BeatResult.needs_claude
    rw [geminiStep_no_analysis _ _ _ _ hg]
  refine ⟨?_, ?_, ?_, ?_⟩
  · show (claudeStep _ _ now).1.gemini_analysis = none
    rw [claudeStep_fst]
    exact geminiStep_no_analysis _ _ _ _ hg
  · show (claudeStep _ _ now).1.needs_claude = false
    rw [claudeStep_fst]
    exact hana _ _
  · show (claudeStep _ _ now).2.2 = false
    rw [claudeStep_no_claude _ _ _ (hana _ _)]
  · show (claudeStep _ _ now).2.1.total_claude_wakes = s.total_claude_wakes
    rw [claudeStep_no_claude _ _ _ (hana _ _)]
    show (geminiStep _ (updateConsecutive s _) now g).2.total_claude_wakes = _
    rw [geminiStep_claude_wakes, updateConsecutive_claude_wakes]

/-- C5, counterexample: on a Tier0-alert tick (one failing check) whose
Tier1 call fails, the heartbeat does consult Tier1 (the call counter moves)
but the failure yields `needs_claude = false` and no Tier2 escalation —
the opposite of fail-safe `escalate = true`. -/
theorem c5_counterexample :
    alertsOf [("solana_rpc", CheckOutcome.fail)] ≠ [] ∧
    (beat {} 1000 [("solana_rpc", CheckOutcome.fail)] .failure).2.1.total_gemini_calls = 1 ∧
    (beat {} 1000 [("solana_rpc", CheckOutcome.fail)] .failure).1.gemini_analysis = none ∧
    (beat {} 1000 [("solana_rpc", CheckOutcome.fail)] .failure).1.needs_claude = false ∧
    (beat {} 1000 [("solana_rpc", CheckOutcome.fail)] .failure).2.2 = false ∧
    (beat {} 1000 [("solana_rpc", CheckOutcome.fail)] .failure).2.1.total_claude_wakes = 0 := by
  decide

/-- C5, amended: only the periodic deep-check path (`run_gemini_check` in
main.py) treats an unavailable or failing Tier1 call as escalate = true; on
the heartbeat Tier0-alert path a Tier1 call that fails or finds the module
unavailable attaches no analysis, so `needs_claude` is false and no Claude
wake (Tier2 escalation) happens that tick. -/
theorem c5_amended :
    runGeminiCheck .unavailable = true ∧
    runGeminiCheck .failure = true ∧
    (∀ (s : HBState) (now : Int) (checks : List (String × CheckOutcome))
       (g : GeminiOutcome), g = .failure ∨ g = .unavailable →
      (beat s now checks g).1.needs_claude = false ∧
      (beat s now checks g).2.2 = false ∧
      (beat s now checks g).2.1.total_claude_wakes = s.total_claude_wakes) :=
  ⟨rfl, rfl, fun s now checks g hg =>
    ⟨(beat_no_analysis_char s now checks g hg).2.1,
     (beat_no_analysis_char s now checks g hg).2.2.1,
     (beat_no_analysis_char s now checks g hg).2.2.2⟩⟩

/-- Witness for C5 (amended) on the concrete alerting tick, for the failing
call and for the unavailable module. -/
theorem c5_witness :
    ((beat {} 1000 [("solana_rpc", CheckOutcome.fail)] .failure).1.needs_claude = false ∧
     (beat {} 1000 [("solana_rpc", CheckOutcome.fail)] .failure).2.2 = false ∧
     (beat {} 1000 [("solana_rpc", CheckOutcome.fail)] .failure).2.1.total_claude_wakes =
       HBState.total_claude_wakes {}) ∧
    ((beat {} 1000 [("solana_rpc", CheckOutcome.fail)] .unavailable).1.needs_claude = false ∧
     (beat {} 1000 [("solana_rpc", CheckOutcome.fail)] .unavailable).2.2 = false ∧
     (beat {} 1000 [("solana_rpc", CheckOutcome.fail)] .unavailable).2.1.total_claude_wakes =
       HBState.total_claude_wakes {}) :=
  ⟨c5_amended.2.2 {} 1000 [("solana_rpc", CheckOutcome.fail)] .failure (Or.inl rfl),
   c5_amended.2.2 {} 1000 [("solana_rpc", CheckOutcome.fail)] .unavailable (Or.inr rfl)⟩

/-- An alerting beat with the rate limiter open makes the Gemini call:
counter bumped, window stamped at this beat's time. -/
lemma beat_first_char (s : HBState) (now : Int)
    (checks : List (String × CheckOutcome)) (g : GeminiOutcome)
    (hlast : s.last_gemini_call_time = none)
    (halert : alertsOf checks ≠ [])
    (hg : g ≠ .unavailable) :
    (beat s now checks g).2.1.total_gemini_calls = s.total_gemini_calls + 1 ∧
    (beat s now checks g).2.1.last_gemini_call_time = some now := by
  have hna : (BeatResult.needs_ai
      { checks_passed := checks.length - failedOf checks
        checks_failed := failedOf checks
        alerts := alertsOf checks }) = true := by
    simp [BeatResult.needs_ai, BeatResult.healthy, halert]
  have hallow : ∀ b : Bool, geminiCallAllowed (updateConsecutive s b) now = true := by
    intro b
    unfold geminiCallAllowed
    rw [updateConsecutive_last_gemini, hlast]
  have hcall : ∀ b : Bool,
      geminiStep
        { checks_passed := checks.length - failedOf checks
          checks_failed := failedOf checks
          alerts := alertsOf checks }
        (updateConsecutive s b) now g =
      askGemini (updateConsecutive s b) now g := by
    intro b
    unfold geminiStep
    rw [if_pos ⟨hna, hallow b⟩]
  constructor
  · show (claudeStep _ _ now).2.1.total_gemini_calls = _
    rw [claudeStep_gemini_calls]
    show (geminiStep _ (updateConsecutive s _) now g).2.total_gemini_calls = _
    rw [hcall]
    rw [(askGemini_called _ now g hg).1, updateConsecutive_gemini_calls]
  · show (claudeStep _ _ now).2.1.last_gemini_call_time = _
    rw [claudeStep_last_gemini]
    show (geminiStep _ (updateConsecutive s _) now g).2.last_gemini_call_time = _
    rw [hcall]
    exact (askGemini_called _ now g hg).2

/-- A beat inside the open rate-limit window leaves the Gemini call counter
and the window stamp unchanged: the call is skipped, not queued. -/
lemma beat_skip_char (s : HBState) (now t0 : Int)
    (checks : List (String × CheckOutcome)) (g : GeminiOutcome)
    (hlast : s.last_gemini_call_time = some t0)
    (hwin : now - t0 < 120) :
    (beat s now checks g).2.1.total_gemini_calls = s.total_gemini_calls ∧
    (beat s now checks g).2.1.last_gemini_call_time = some t0 := by
  have hs1 : ∀ b : Bool, (updateConsecutive s b).last_gemini_call_time = some t0 := by
    intro b
    rw [updateConsecutive_last_gemini, hlast]
  constructor
  · show (claudeStep _ _ now).2.1.total_gemini_calls = _
    rw [claudeStep_gemini_calls]
    show (geminiStep _ (updateConsecutive s _) now g).2.total_gemini_calls = _
    rw [geminiStep_skip _ _ now t0 g (hs1 _) hwin]
    exact updateConsecutive_gemini_calls s _
  · show (claudeStep _ _ now).2.1.last_gemini_call_time = _
    rw [claudeStep_last_gemini]
    show (geminiStep _ (updateConsecutive s _) now g).2.last_gemini_call_time = _
    rw [geminiStep_skip _ _ now t0 g (hs1 _) hwin]
    exact hs1 _

/-- Folding beats whose times all lie inside the window of the stamped call
leaves the Gemini call counter and stamp unchanged. -/
lemma runBeats_in_window (t0 : Int) (ticks : List Tick) :
    ∀ s : HBState, s.last_gemini_call_time = some t0 →
    (∀ t ∈ ticks, t.time - t0 < 120) →
    (runBeats s ticks).total_gemini_calls = s.total_gemini_calls ∧
    (runBeats s ticks).last_gemini_call_time = some t0 := by
  induction ticks with
  | nil => exact fun s hlast _ => ⟨rfl, hlast⟩
  | cons t rest ih =>
      intro s hlast hwin
      have hb := beat_skip_char s t.time t0 t.checks t.gemini hlast
        (hwin t (List.mem_cons_self t rest))
      have hrest := ih (beat s t.time t.checks t.gemini).2.1 hb.2
        (fun x hx => hwin x (List.mem_cons_of_mem t hx))
      rw [runBeats]
      exact ⟨hrest.1.trans hb.1, hrest.2⟩

/-- C10: starting from a fresh heartbeat state, an alerting tick with the
Tier1 module importable makes one Gemini call, and any number of further
ticks whose times fall inside the 120-second window starting at that call —
alerting or not — add no further calls: exactly one Tier1 call per window. -/
theorem c10_one_gemini_call_per_window (tk : Tick) (rest : List Tick)
    (halert : alertsOf tk.checks ≠ [])
    (havail : tk.gemini ≠ .unavailable)
    (hwin : ∀ t ∈ rest, t.time - tk.time < 120) :
    (runBeats {} (tk :: rest)).total_gemini_calls = 1 ∧
    (runBeats {} (tk :: rest)).last_gemini_call_time = some tk.time := by
  have h1 := beat_first_char {} tk.time tk.checks tk.gemini rfl halert havail
  rw [runBeats]
  have h2 := runBeats_in_window tk.time rest
    (beat {} tk.time tk.checks tk.gemini).2.1 h1.2 hwin
  refine ⟨?_, h2.2⟩
  rw [h2.1, h1.1]

/-- The first alerting tick of the C10 witness (Gemini available). -/
def c10Tick0 : Tick :=
  { time := 0, checks := [("solana_rpc", CheckOutcome.fail)], gemini := .ok {} }

/-- Three more alerting ticks inside the 120-second window, with assorted
Gemini availability. -/
def c10Rest : List Tick :=
  [{ time := 30, checks := [("solana_rpc", CheckOutcome.fail)], gemini := .ok {} },
   { time := 60, checks := [("solana_rpc", CheckOutcome.fail)], gemini := .failure },
   { time := 90, checks := [("memory_usage", CheckOutcome.err "boom")], gemini := .unavailable }]

/-- Witness for C10: four alerting ticks at 0 s, 30 s, 60 s, 90 s produce
exactly one Gemini call. -/
theorem c10_witness :
    (runBeats {} (c10Tick0 :: c10Rest)).total_gemini_calls = 1 ∧
    (runBeats {} (c10Tick0 :: c10Rest)).last_gemini_call_time = some 0 :=
  c10_one_gemini_call_per_window c10Tick0 c10Rest (by decide) (by decide) (by decide)

/-- Every verification trace starts with the settle-delay sleep, whatever
the result status — including Skipped and Failed. -/
lemma verify_trace_head (agents : String → Option AgentConfig) (env : VerifierEnv)
    (delay : Int) (plan : RecoveryPlan) (result : RecoveryResult) :
    ∃ rest, (Verifier.verify agents env delay plan result).2 =
      VerEffect.sleep delay :: rest := by
  unfold Verifier.verify
  split
  · exact ⟨[], rfl⟩
  · split
    · exact ⟨_, rfl⟩
    · split
      · exact ⟨_, rfl⟩
      · split
        · exact ⟨_, rfl⟩
        · exact ⟨[], rfl⟩

/-- The restart verification only re-observes process liveness and agent
health (besides what it was handed). -/
lemma verify_restart_trace (agents : String → Option AgentConfig) (env : VerifierEnv)
    (plan : RecoveryPlan) (sleepFx : List VerEffect) :
    ∀ e ∈ (verify_restart agents env plan sleepFx).2,
      e ∈ sleepFx ∨ (∃ pn, e = VerEffect.checkProcess pn) ∨
      (∃ an, e = VerEffect.checkAgentHealth an) := by
  intro e he
  unfold verify_restart at he
  simp only [List.append_assoc, List.mem_append] at he
  rcases he with hs | hp | hh
  · exact Or.inl hs
  · rcases hA : plan.agent_name.bind agents with _ | a
    · simp [hA] at hp
    · simp only [hA] at hp
      rcases hpn : a.process_name with _ | pn
      · simp [hpn] at hp
      · simp only [hpn] at hp
        have he2 : e = VerEffect.checkProcess pn := by
          by_cases hr : env.process_running pn = true
          · simp [hr] at hp
            exact hp
          · simp [hr] at hp
            exact hp
        exact Or.inr (Or.inl ⟨pn, he2⟩)
  · rcases hA : plan.agent_name.bind agents with _ | a
    · simp [hA] at hh
    · simp only [hA] at hh
      by_cases hhe : a.health_endpoint.isSome = true
      · have he2 : e = VerEffect.checkAgentHealth a.name := by
          by_cases hst : env.agent_status a.name = .healthy
          · simp [hhe, hst] at hh
            exact hh
          · simp [hhe, hst] at hh
            exact hh
        exact Or.inr (Or.inr ⟨a.name, he2⟩)
      · simp [hhe] at hh

/-- An AlertHuman plan of the C8 scenario. -/
def c8Plan : RecoveryPlan :=
  { incident_id := "INC-0005"
    action := .alert_human
    agent_name := none
    requires_human := true
    reason := "needs an operator" }

/-- Its Skipped execution result. -/
def c8Result : RecoveryResult :=
  { incident_id := "INC-0005", action := .alert_human, status := .skipped }

/-- Environment and registry for the C8 scenario (never consulted on the
short-circuit path). -/
def c8Agents : String → Option AgentConfig := fun _ => none

/-- C8, counterexample: for a Skipped result, `verify` does return
`verified = false` without re-observing — but its trace contains the
10-second settle sleep, performed before the Skipped/Failed check, so the
claim that only non-Skipped/Failed statuses wait the settle delay is false.
-/
theorem c8_counterexample :
    c8Result.status = .skipped ∧
    (Verifier.verify c8Agents {} 10 c8Plan c8Result).1.verified = false ∧
    (Verifier.verify c8Agents {} 10 c8Plan c8Result).2 = [VerEffect.sleep 10] ∧
    VerEffect.sleep 10 ∈ (Verifier.verify c8Agents {} 10 c8Plan c8Result).2 := by
  refine ⟨rfl, rfl, rfl, ?_⟩
  rw [show (Verifier.verify c8Agents {} 10 c8Plan c8Result).2 =
    [VerEffect.sleep 10] from rfl]
  exact List.mem_singleton_self _

/-- C8, amended: `verify` always waits the settle delay first, for every
result status; Skipped/Failed results then short-circuit to
`verified = false` with no re-observation (trace exactly the sleep); for
other statuses the re-checks cover only the state relevant to the action:
process liveness/agent health for RestartProcess, the switched endpoint for
SwitchDependencyEndpoint, devnet health for ApplyCooldown, and no
observation at all for the remaining actions, which are verified from the
recovery status alone. -/
theorem c8_amended (agents : String → Option AgentConfig) (env : VerifierEnv)
    (delay : Int) (plan : RecoveryPlan) (result : RecoveryResult) :
    ((Verifier.verify agents env delay plan result).2.head? =
      some (VerEffect.sleep delay)) ∧
    (result.status = .skipped ∨ result.status = .failed →
      (Verifier.verify agents env delay plan result).1.verified = false ∧
      (Verifier.verify agents env delay plan result).2 = [VerEffect.sleep delay]) ∧
    (¬ (result.status = .skipped ∨ result.status = .failed) →
      (plan.action = .restart_process →
        ∀ e ∈ (Verifier.verify agents env delay plan result).2,
          e = VerEffect.sleep delay ∨ (∃ pn, e = VerEffect.checkProcess pn) ∨
          (∃ an, e = VerEffect.checkAgentHealth an)) ∧
      (plan.action = .switch_rpc →
        (Verifier.verify agents env delay plan result).2 =
          [VerEffect.sleep delay,
           VerEffect.checkRpcHealth (result.details.new_endpoint.getD DEVNET_RPC)]) ∧
      (plan.action = .apply_cooldown →
        (Verifier.verify agents env delay plan result).2 =
          [VerEffect.sleep delay, VerEffect.checkDevnetHealth]) ∧
      (plan.action = .alert_human ∨ plan.action = .no_action ∨
          plan.action = .clear_cache →
        (Verifier.verify agents env delay plan result).2 = [VerEffect.sleep delay] ∧
        (Verifier.verify agents env delay plan result).1.verified =
          decide (result.status = .success))) := by
  refine ⟨?_, ?_, ?_⟩
  · obtain ⟨rest, hr⟩ := verify_trace_head agents env delay plan result
    rw [hr]
    rfl
  · intro hsf
    have hv : Verifier.verify agents env delay plan result =
        ({ incident_id := plan.incident_id
           verified := false
           checks_passed := 0
           checks_failed := 0
           message := "Verification skipped - recovery did not execute" },
         [VerEffect.sleep delay]) := by
      unfold Verifier.verify
      rw [if_pos hsf]
    rw [hv]
    exact ⟨rfl, rfl⟩
  · intro hsf
    refine ⟨?_, ?_, ?_, ?_⟩
    · intro ha e he
      have hv : Verifier.verify agents env delay plan result =
          verify_restart agents env plan [VerEffect.sleep delay] := by
        unfold Verifier.verify
        rw [if_neg hsf, if_pos ha]
      rw [hv] at he
      rcases verify_restart_trace agents env plan [VerEffect.sleep delay] e he with
        hs | hrest
      · exact Or.inl (by simpa using hs)
      · exact Or.inr hrest
    · intro ha
      have hne : ¬ (plan.action = .restart_process) := by
        rw [ha]
        decide
      unfold Verifier.verify
      rw [if_neg hsf, if_neg hne, if_pos ha]
      rfl
    · intro ha
      have hne1 : ¬ (plan.action = .restart_process) := by
        rw [ha]
        decide
      have hne2 : ¬ (plan.action = .switch_rpc) := by
        rw [ha]
        decide
      unfold Verifier.verify
      rw [if_neg hsf, if_neg hne1, if_neg hne2, if_pos ha]
      rfl
    · intro ha
      have hne1 : ¬ (plan.action = .restart_process) := by
        rcases ha with h | h | h <;> rw [h] <;> decide
      have hne2 : ¬ (plan.action = .switch_rpc) := by
        rcases ha with h | h | h <;> rw [h] <;> decide
      have hne3 : ¬ (plan.action = .apply_cooldown) := by
        rcases ha with h | h | h <;> rw [h] <;> decide
      unfold Verifier.verify
      rw [if_neg hsf, if_neg hne1, if_neg hne2, if_neg hne3]
      exact ⟨rfl, rfl⟩

/-- Witness for C8 (amended) on the Skipped AlertHuman scenario. -/
theorem c8_witness :
    (Verifier.verify c8Agents {} 10 c8Plan c8Result).1.verified = false ∧
    (Verifier.verify c8Agents {} 10 c8Plan c8Result).2 = [VerEffect.sleep 10] :=
  (c8_amended c8Agents {} 10 c8Plan c8Result).2.1 (Or.inl rfl)

end AgentMedic
